import Mathlib

/-!
Shallow embedding of the signal lifecycle engine of `src/boy.py`
(ProfitOptimizedTradingBot): the signal factory `create_signal`, the
cooldown map and `is_cooldown`, the per-signal body of the
`signal_monitor` loop, `close_signal`, and the rate computation of
`stats`.  Prices, levels and timestamps are exact rationals; timestamps
count seconds (so `timedelta(minutes=5)` is `5 * 60`).  Random draws
(`random.random()`, `random.uniform`, the draw consumed by
`random.choices`) are passed as explicit rational parameters in the
order the Python code consumes them.
-/

/-- `direction` field: the Python strings "BUY" / "SELL". -/
inductive Direction
  | buy
  | sell
  deriving DecidableEq, Repr

/-- `strategy` field: the Python strings "scalping" / "intraday". -/
inductive Strategy
  | scalping
  | intraday
  deriving DecidableEq, Repr

/-- A signal record as built in `create_signal` (boy.py lines 125-138);
`close_reason` and `closed_at` are the keys added later by
`close_signal`, absent (`none`) at creation. -/
structure Signal where
  pair : String
  direction : Direction
  strategy : Strategy
  entry : ℚ
  tp1 : ℚ
  tp2 : ℚ
  tp3 : ℚ
  sl : ℚ
  expiry : ℚ
  status : String
  confidence : ℚ
  created_at : ℚ
  close_reason : Option String
  closed_at : Option ℚ
  deriving DecidableEq, Repr

/-- The in-memory performance counters (boy.py lines 33-39). -/
structure Performance where
  total_signals : Nat
  tp1_hits : Nat
  tp2_hits : Nat
  tp3_hits : Nat
  sl_hits : Nat
  deriving DecidableEq, Repr

/-- The all-zero counters the bot starts with. -/
def perf0 : Performance := ⟨0, 0, 0, 0, 0⟩

/-- Lookup in the `signal_cooldown` dict, modelled as an association
list where the most recent write is first. -/
def cooldownLookup : List (String × ℚ) → String → Option ℚ
  | [], _ => none
  | (p, t) :: rest, q => if p = q then some t else cooldownLookup rest q

/-- `is_cooldown` (boy.py lines 247-250): true iff a cooldown-until
timestamp exists for the pair and `now` is strictly before it. -/
def is_cooldown (cooldown : List (String × ℚ)) (pair : String) (now : ℚ) : Bool :=
  match cooldownLookup cooldown pair with
  | none => false
  | some cooldown_end => decide (now < cooldown_end)

/-- `create_signal` (boy.py lines 104-143).  `volatility` is the
`random.uniform(0.001, 0.005)` draw of line 107, `now` the wall clock.
Returns the signal dict together with the updated `signal_cooldown`
map (line 141 arms `now + 5 minutes` for the pair). -/
def create_signal (cooldown : List (String × ℚ)) (pair : String)
    (direction : Direction) (strategy : Strategy) (entry : ℚ)
    (confidence : ℚ) (volatility : ℚ) (now : ℚ) :
    Signal × List (String × ℚ) :=
  if strategy = Strategy.scalping then
    ({ pair := pair, direction := direction, strategy := strategy, entry := entry,
       tp1 := if direction = Direction.buy then entry * (1 + volatility)
              else entry * (1 - volatility),
       tp2 := if direction = Direction.buy then entry * (1 + (3/2) * volatility)
              else entry * (1 - (3/2) * volatility),
       tp3 := if direction = Direction.buy then entry * (1 + 2 * volatility)
              else entry * (1 - 2 * volatility),
       sl := if direction = Direction.buy then entry * (1 - (7/10) * volatility)
             else entry * (1 + (7/10) * volatility),
       expiry := now + 30 * 60,
       status := "active", confidence := confidence, created_at := now,
       close_reason := none, closed_at := none },
     (pair, now + 5 * 60) :: cooldown)
  else
    ({ pair := pair, direction := direction, strategy := strategy, entry := entry,
       tp1 := if direction = Direction.buy then entry * (1 + (3/2) * volatility)
              else entry * (1 - (3/2) * volatility),
       tp2 := if direction = Direction.buy then entry * (1 + (5/2) * volatility)
              else entry * (1 - (5/2) * volatility),
       tp3 := if direction = Direction.buy then entry * (1 + 4 * volatility)
              else entry * (1 - 4 * volatility),
       sl := if direction = Direction.buy then entry * (1 - (6/5) * volatility)
             else entry * (1 + (6/5) * volatility),
       expiry := now + 4 * 3600,
       status := "active", confidence := confidence, created_at := now,
       close_reason := none, closed_at := none },
     (pair, now + 5 * 60) :: cooldown)

/-- `close_signal` (boy.py lines 191-212): set status/closed_at/
close_reason on the dict and bump the counter matching `close_type`
(anything other than tp1/tp2/tp3 falls to the `else` branch, sl). -/
def close_signal (s : Signal) (close_type : String) (now : ℚ)
    (perf : Performance) : Signal × Performance :=
  let s2 := { s with status := "closed", closed_at := some now,
                     close_reason := some close_type }
  let perf2 :=
    if close_type = "tp1" then { perf with tp1_hits := perf.tp1_hits + 1 }
    else if close_type = "tp2" then { perf with tp2_hits := perf.tp2_hits + 1 }
    else if close_type = "tp3" then { perf with tp3_hits := perf.tp3_hits + 1 }
    else { perf with sl_hits := perf.sl_hits + 1 }
  (s2, perf2)

/-- The draw consumed by `random.choices([1,2,3], weights=[0.6,0.3,0.1])`
(boy.py line 176): cumulative weights 0.6 / 0.9 / 1.0. -/
def choose_tp_level (r : ℚ) : Nat :=
  if r < 6/10 then 1 else if r < 9/10 then 2 else 3

/-- The random resolution of one active signal in the `signal_monitor`
loop (boy.py lines 174-186).  `r1` is the first `random.random()` draw
(TP gate, threshold 0.8); `r2` is the next draw consumed: the
`random.choices` draw when the gate passes, otherwise the second
`random.random()` (SL gate, threshold 0.1).  `none` means the signal
stays active this tick. -/
def monitor_resolve (r1 r2 : ℚ) : Option String :=
  if r1 < 8/10 then
    if choose_tp_level r2 = 1 then some "tp1"
    else if choose_tp_level r2 = 2 then some "tp2"
    else some "tp3"
  else if r2 < 1/10 then some "sl"
  else none

/-- Python truthiness of `if not current_price: continue` (boy.py line
171): a price is usable iff it is present and not `0.0`. -/
def price_available (price : Option ℚ) : Bool :=
  match price with
  | none => false
  | some p => decide (p ≠ 0)

/-- The body of the `signal_monitor` loop for a single active signal
(boy.py lines 169-186): skip if the pair's live price is falsy,
otherwise resolve by the random draws and, on a hit, close via
`close_signal`.  Note the loop never reads `s.expiry`. -/
def signal_monitor_step (s : Signal) (price : Option ℚ) (r1 r2 : ℚ)
    (now : ℚ) (perf : Performance) : Signal × Performance :=
  if price_available price then
    match monitor_resolve r1 r2 with
    | some reason => close_signal s reason now perf
    | none => (s, perf)
  else (s, perf)

/-- The fetch of `signal_monitor` (boy.py line 168): only records with
`status == "active"` are selected for processing. -/
def fetch_active (signals : List Signal) : List Signal :=
  signals.filter (fun s => s.status = "active")

/-- Denominator used by `stats` (boy.py line 314): `max(1, total_signals)`. -/
def stats_total (perf : Performance) : ℚ := max 1 (perf.total_signals : ℚ)

/-- `tp1_rate` of `stats` (boy.py line 315). -/
def tp1_rate (perf : Performance) : ℚ := (perf.tp1_hits : ℚ) / stats_total perf * 100

/-- `tp2_rate` of `stats` (boy.py line 316). -/
def tp2_rate (perf : Performance) : ℚ := (perf.tp2_hits : ℚ) / stats_total perf * 100

/-- `tp3_rate` of `stats` (boy.py line 317). -/
def tp3_rate (perf : Performance) : ℚ := (perf.tp3_hits : ℚ) / stats_total perf * 100

/-- `sl_rate` of `stats` (boy.py line 318). -/
def sl_rate (perf : Performance) : ℚ := (perf.sl_hits : ℚ) / stats_total perf * 100

/-- `win_rate` of `stats` (boy.py line 319). -/
def win_rate (perf : Performance) : ℚ := 100 - sl_rate perf

/-- Exact probability model for the monitor's resolution: every
threshold in `monitor_resolve` is a multiple of 1/10 and the two draws
are independent and uniform on [0,1), so the outcome is constant on
each half-open cell [i/10,(i+1)/10) × [j/10,(j+1)/10) and the
probability of an outcome is the number of the 100 cells mapped to it,
divided by 100. -/
def monitor_outcome_prob (outcome : Option String) : ℚ :=
  (((Finset.range 10 ×ˢ Finset.range 10).filter
      (fun p => monitor_resolve ((p.1 : ℚ) / 10) ((p.2 : ℚ) / 10) = outcome)).card : ℚ) / 100

/-- `monitor_resolve` restricted to the grid corners, with the rational
comparisons rewritten as comparisons of the Nat cell indices
(`i/10 < k/10 ↔ i < k`); proved equal to `monitor_resolve` on the grid
in `resolve_grid_eq`. -/
def natResolve (i j : Nat) : Option String :=
  if i < 8 then (if j < 6 then some "tp1" else if j < 9 then some "tp2" else some "tp3")
  else if j < 1 then some "sl" else none

lemma resolve_grid_eq (i j : Nat) (hi : i < 10) (hj : j < 10) :
    monitor_resolve ((i : ℚ) / 10) ((j : ℚ) / 10) = natResolve i j := by
  interval_cases i <;> interval_cases j <;>
    norm_num [monitor_resolve, choose_tp_level, natResolve]

lemma monitor_prob_eq_grid (outcome : Option String) :
    monitor_outcome_prob outcome =
      (((Finset.range 10 ×ˢ Finset.range 10).filter
          (fun p => natResolve p.1 p.2 = outcome)).card : ℚ) / 100 := by
  have h : (Finset.range 10 ×ˢ Finset.range 10).filter
        (fun p => monitor_resolve ((p.1 : ℚ) / 10) ((p.2 : ℚ) / 10) = outcome) =
      (Finset.range 10 ×ˢ Finset.range 10).filter
        (fun p => natResolve p.1 p.2 = outcome) := by
    apply Finset.filter_congr
    intro p hp
    rw [Finset.mem_product] at hp
    rw [resolve_grid_eq p.1 p.2 (Finset.mem_range.mp hp.1) (Finset.mem_range.mp hp.2)]
  unfold monitor_outcome_prob
  rw [h]

/-- A concrete active signal (the §8 scenario record: entry 1800, BUY,
scalping, volatility 0.002, created at time 0). -/
def sampleSignal : Signal :=
  { pair := "XAUUSD", direction := Direction.buy, strategy := Strategy.scalping,
    entry := 1800, tp1 := 1803.6, tp2 := 1805.4, tp3 := 1807.2, sl := 1797.48,
    expiry := 1800, status := "active", confidence := 9/10, created_at := 0,
    close_reason := none, closed_at := none }

/-- `sampleSignal` already past its expiry when observed at time 2000. -/
def expiredSignal : Signal := { sampleSignal with expiry := 1000 }

/-- A record in the terminal state: `sampleSignal` closed as a TP1 hit
at time 100. -/
def closedSignal : Signal :=
  { sampleSignal with status := "closed", close_reason := some "tp1",
                      closed_at := some 100 }


/-! ## Claim theorems -/

/-- C5: for entry 1800, BUY, SCALPING and volatility draw 0.002,
`create_signal` computes tp1 = 1803.6, tp2 = 1805.4, tp3 = 1807.2 and
sl = 1797.48, each level being entry × (1 ± k·volatility) with the
scalping multipliers k ∈ {1.0, 1.5, 2.0} for TP and 0.7 for SL. -/
theorem create_signal_scalping_scenario :
    ((create_signal [] "XAUUSD" Direction.buy Strategy.scalping 1800 (9/10) (2/1000) 0).1.tp1
        = 1803.6 ∧
     (create_signal [] "XAUUSD" Direction.buy Strategy.scalping 1800 (9/10) (2/1000) 0).1.tp2
        = 1805.4 ∧
     (create_signal [] "XAUUSD" Direction.buy Strategy.scalping 1800 (9/10) (2/1000) 0).1.tp3
        = 1807.2 ∧
     (create_signal [] "XAUUSD" Direction.buy Strategy.scalping 1800 (9/10) (2/1000) 0).1.sl
        = 1797.48) ∧
    ((1803.6 : ℚ) = 1800 * (1 + 1 * (2/1000)) ∧
     (1805.4 : ℚ) = 1800 * (1 + (3/2) * (2/1000)) ∧
     (1807.2 : ℚ) = 1800 * (1 + 2 * (2/1000)) ∧
     (1797.48 : ℚ) = 1800 * (1 - (7/10) * (2/1000))) := by
  norm_num [create_signal]

/-- C3 (code bug): `create_signal` performs no input validation at all.
Called with the non-positive entry −1 it still returns a signal record
(status "active", with a negative take-profit level, violating the level
invariants) and it still mutates the cooldown map as a side effect. -/
theorem create_signal_accepts_nonpositive_entry :
    (create_signal [] "XAUUSD" Direction.buy Strategy.scalping (-1) (9/10) (2/1000) 0).1.status
      = "active" ∧
    (create_signal [] "XAUUSD" Direction.buy Strategy.scalping (-1) (9/10) (2/1000) 0).1.entry
      = -1 ∧
    (create_signal [] "XAUUSD" Direction.buy Strategy.scalping (-1) (9/10) (2/1000) 0).1.tp1 < 0 ∧
    (create_signal [] "XAUUSD" Direction.buy Strategy.scalping (-1) (9/10) (2/1000) 0).2
      = [("XAUUSD", 300)] := by
  norm_num [create_signal]

/-- C1 (code bug): the `signal_monitor` body never reads `expiry`.  An
ACTIVE signal whose expiry (1000) is already past at tick time 2000,
with its price available, is left ACTIVE and completely unchanged
whenever the random draws miss (here r1 = 0.9 fails the TP gate and
r2 = 0.5 fails the SL gate); it is not force-closed. -/
theorem monitor_does_not_close_expired :
    expiredSignal.status = "active" ∧ expiredSignal.expiry < 2000 ∧
    signal_monitor_step expiredSignal (some 1800) (9/10) (5/10) 2000 perf0
      = (expiredSignal, perf0) := by
  refine ⟨rfl, by norm_num [expiredSignal, sampleSignal], ?_⟩
  norm_num [signal_monitor_step, price_available, monitor_resolve, choose_tp_level]

/-- C10: an active signal whose price is `None` or exactly `0.0` is
skipped by the monitor body: the record and the performance counters
are returned unchanged (so the signal keeps its ACTIVE status). -/
theorem monitor_skips_unavailable_price (s : Signal) (r1 r2 now : ℚ)
    (perf : Performance) :
    signal_monitor_step s none r1 r2 now perf = (s, perf) ∧
    signal_monitor_step s (some 0) r1 r2 now perf = (s, perf) := by
  constructor <;> simp [signal_monitor_step, price_available]

/-- C9: with zero total signals and zero hit counters, the rate
computation of `stats` uses denominator `max 1 total_signals`, returns
0% for each of the tp1/tp2/tp3/sl hit rates, and the win rate is
100 − sl_rate = 100. -/
theorem stats_zero_rates (perf : Performance) (h0 : perf.total_signals = 0)
    (h1 : perf.tp1_hits = 0) (h2 : perf.tp2_hits = 0) (h3 : perf.tp3_hits = 0)
    (h4 : perf.sl_hits = 0) :
    stats_total perf = max 1 ((perf.total_signals : ℚ)) ∧
    tp1_rate perf = 0 ∧ tp2_rate perf = 0 ∧ tp3_rate perf = 0 ∧
    sl_rate perf = 0 ∧ win_rate perf = 100 - sl_rate perf ∧
    win_rate perf = 100 := by
  simp [stats_total, tp1_rate, tp2_rate, tp3_rate, sl_rate, win_rate,
        h0, h1, h2, h3, h4]

/-- Witness for C9 at the bot's initial all-zero counters. -/
theorem stats_zero_rates_witness :
    perf0.total_signals = 0 ∧
    (stats_total perf0 = max 1 ((perf0.total_signals : ℚ)) ∧
     tp1_rate perf0 = 0 ∧ tp2_rate perf0 = 0 ∧ tp3_rate perf0 = 0 ∧
     sl_rate perf0 = 0 ∧ win_rate perf0 = 100 - sl_rate perf0 ∧
     win_rate perf0 = 100) :=
  ⟨rfl, stats_zero_rates perf0 rfl rfl rfl rfl rfl⟩

/-- C6: a successful `create_signal` call arms a 5-minute (300 s)
cooldown for the pair, and `is_cooldown` then answers true exactly for
the times strictly before the armed cooldown-until timestamp and false
at or after it. -/
theorem create_signal_arms_cooldown (cooldown : List (String × ℚ))
    (pair : String) (direction : Direction) (strategy : Strategy)
    (entry confidence volatility now t : ℚ) :
    cooldownLookup
        (create_signal cooldown pair direction strategy entry confidence volatility now).2 pair
      = some (now + 5 * 60) ∧
    (is_cooldown
        (create_signal cooldown pair direction strategy entry confidence volatility now).2 pair t
      = true ↔ t < now + 5 * 60) := by
  cases strategy <;> simp [create_signal, is_cooldown, cooldownLookup]

lemma monitor_resolve_reasons (r1 r2 : ℚ) (reason : String)
    (h : monitor_resolve r1 r2 = some reason) :
    reason = "tp1" ∨ reason = "tp2" ∨ reason = "tp3" ∨ reason = "sl" := by
  unfold monitor_resolve at h
  split_ifs at h <;> simp_all

set_option maxHeartbeats 2000000

/-- C4: every signal produced by `create_signal` with positive entry and
the volatility draw inside its `random.uniform(0.001, 0.005)` range has
strictly ordered levels in both directions (BUY: sl < entry < tp1 < tp2
< tp3; SELL: tp3 < tp2 < tp1 < entry < sl) and all four levels are
positive. -/
theorem create_signal_level_ordering (cooldown : List (String × ℚ))
    (pair : String) (direction : Direction) (strategy : Strategy)
    (entry confidence volatility now : ℚ) (hentry : 0 < entry)
    (hv1 : 1/1000 ≤ volatility) (hv2 : volatility ≤ 5/1000) :
    (direction = Direction.buy →
      (create_signal cooldown pair direction strategy entry confidence volatility now).1.sl
        < (create_signal cooldown pair direction strategy entry confidence volatility now).1.entry ∧
      (create_signal cooldown pair direction strategy entry confidence volatility now).1.entry
        < (create_signal cooldown pair direction strategy entry confidence volatility now).1.tp1 ∧
      (create_signal cooldown pair direction strategy entry confidence volatility now).1.tp1
        < (create_signal cooldown pair direction strategy entry confidence volatility now).1.tp2 ∧
      (create_signal cooldown pair direction strategy entry confidence volatility now).1.tp2
        < (create_signal cooldown pair direction strategy entry confidence volatility now).1.tp3) ∧
    (direction = Direction.sell →
      (create_signal cooldown pair direction strategy entry confidence volatility now).1.tp3
        < (create_signal cooldown pair direction strategy entry confidence volatility now).1.tp2 ∧
      (create_signal cooldown pair direction strategy entry confidence volatility now).1.tp2
        < (create_signal cooldown pair direction strategy entry confidence volatility now).1.tp1 ∧
      (create_signal cooldown pair direction strategy entry confidence volatility now).1.tp1
        < (create_signal cooldown pair direction strategy entry confidence volatility now).1.entry ∧
      (create_signal cooldown pair direction strategy entry confidence volatility now).1.entry
        < (create_signal cooldown pair direction strategy entry confidence volatility now).1.sl) ∧
    (0 < (create_signal cooldown pair direction strategy entry confidence volatility now).1.tp1 ∧
     0 < (create_signal cooldown pair direction strategy entry confidence volatility now).1.tp2 ∧
     0 < (create_signal cooldown pair direction strategy entry confidence volatility now).1.tp3 ∧
     0 < (create_signal cooldown pair direction strategy entry confidence volatility now).1.sl) := by
  have hv : 0 < volatility := lt_of_lt_of_le (by norm_num) hv1
  have hev : 0 < entry * volatility := mul_pos hentry hv
  have hevb : entry * volatility ≤ entry * (5/1000) :=
    mul_le_mul_of_nonneg_left hv2 hentry.le
  refine ⟨?_, ?_, ?_⟩
  · intro hd
    subst hd
    cases strategy <;> simp [create_signal] <;> and_intros <;>
      nlinarith [hev, hevb, hentry]
  · intro hd
    subst hd
    cases strategy <;> simp [create_signal] <;> and_intros <;>
      nlinarith [hev, hevb, hentry]
  · cases direction <;> cases strategy <;> simp [create_signal] <;> and_intros <;>
      nlinarith [hev, hevb, hentry]

/-- Witness for C4 at entry 1800, BUY, SCALPING, volatility 0.002. -/
theorem create_signal_level_ordering_witness :
    (0 : ℚ) < 1800 ∧ (1/1000 : ℚ) ≤ 2/1000 ∧ (2/1000 : ℚ) ≤ 5/1000 ∧
    ((Direction.buy = Direction.buy →
      (create_signal [] "XAUUSD" Direction.buy Strategy.scalping 1800 (9/10) (2/1000) 0).1.sl
        < (create_signal [] "XAUUSD" Direction.buy Strategy.scalping 1800 (9/10) (2/1000) 0).1.entry ∧
      (create_signal [] "XAUUSD" Direction.buy Strategy.scalping 1800 (9/10) (2/1000) 0).1.entry
        < (create_signal [] "XAUUSD" Direction.buy Strategy.scalping 1800 (9/10) (2/1000) 0).1.tp1 ∧
      (create_signal [] "XAUUSD" Direction.buy Strategy.scalping 1800 (9/10) (2/1000) 0).1.tp1
        < (create_signal [] "XAUUSD" Direction.buy Strategy.scalping 1800 (9/10) (2/1000) 0).1.tp2 ∧
      (create_signal [] "XAUUSD" Direction.buy Strategy.scalping 1800 (9/10) (2/1000) 0).1.tp2
        < (create_signal [] "XAUUSD" Direction.buy Strategy.scalping 1800 (9/10) (2/1000) 0).1.tp3) ∧
     (Direction.buy = Direction.sell →
      (create_signal [] "XAUUSD" Direction.buy Strategy.scalping 1800 (9/10) (2/1000) 0).1.tp3
        < (create_signal [] "XAUUSD" Direction.buy Strategy.scalping 1800 (9/10) (2/1000) 0).1.tp2 ∧
      (create_signal [] "XAUUSD" Direction.buy Strategy.scalping 1800 (9/10) (2/1000) 0).1.tp2
        < (create_signal [] "XAUUSD" Direction.buy Strategy.scalping 1800 (9/10) (2/1000) 0).1.tp1 ∧
      (create_signal [] "XAUUSD" Direction.buy Strategy.scalping 1800 (9/10) (2/1000) 0).1.tp1
        < (create_signal [] "XAUUSD" Direction.buy Strategy.scalping 1800 (9/10) (2/1000) 0).1.entry ∧
      (create_signal [] "XAUUSD" Direction.buy Strategy.scalping 1800 (9/10) (2/1000) 0).1.entry
        < (create_signal [] "XAUUSD" Direction.buy Strategy.scalping 1800 (9/10) (2/1000) 0).1.sl) ∧
     (0 < (create_signal [] "XAUUSD" Direction.buy Strategy.scalping 1800 (9/10) (2/1000) 0).1.tp1 ∧
      0 < (create_signal [] "XAUUSD" Direction.buy Strategy.scalping 1800 (9/10) (2/1000) 0).1.tp2 ∧
      0 < (create_signal [] "XAUUSD" Direction.buy Strategy.scalping 1800 (9/10) (2/1000) 0).1.tp3 ∧
      0 < (create_signal [] "XAUUSD" Direction.buy Strategy.scalping 1800 (9/10) (2/1000) 0).1.sl)) :=
  ⟨by norm_num, by norm_num, by norm_num,
   create_signal_level_ordering [] "XAUUSD" Direction.buy Strategy.scalping
     1800 (9/10) (2/1000) 0 (by norm_num) (by norm_num) (by norm_num)⟩

/-- C7: when the monitor body closes a signal, only status, close_reason
and closed_at change: pair, direction, strategy, entry, the four levels,
confidence, expiry and created_at of the closed record all equal those
of the input record, and the close_reason recorded is one of
tp1/tp2/tp3/sl. -/
theorem monitor_close_frame (s : Signal) (price r1 r2 now : ℚ)
    (perf : Performance) (hact : s.status = "active")
    (hclosed : (signal_monitor_step s (some price) r1 r2 now perf).1.status = "closed") :
    (signal_monitor_step s (some price) r1 r2 now perf).1.pair = s.pair ∧
    (signal_monitor_step s (some price) r1 r2 now perf).1.direction = s.direction ∧
    (signal_monitor_step s (some price) r1 r2 now perf).1.strategy = s.strategy ∧
    (signal_monitor_step s (some price) r1 r2 now perf).1.entry = s.entry ∧
    (signal_monitor_step s (some price) r1 r2 now perf).1.tp1 = s.tp1 ∧
    (signal_monitor_step s (some price) r1 r2 now perf).1.tp2 = s.tp2 ∧
    (signal_monitor_step s (some price) r1 r2 now perf).1.tp3 = s.tp3 ∧
    (signal_monitor_step s (some price) r1 r2 now perf).1.sl = s.sl ∧
    (signal_monitor_step s (some price) r1 r2 now perf).1.confidence = s.confidence ∧
    (signal_monitor_step s (some price) r1 r2 now perf).1.expiry = s.expiry ∧
    (signal_monitor_step s (some price) r1 r2 now perf).1.created_at = s.created_at ∧
    ((signal_monitor_step s (some price) r1 r2 now perf).1.close_reason = some "tp1" ∨
     (signal_monitor_step s (some price) r1 r2 now perf).1.close_reason = some "tp2" ∨
     (signal_monitor_step s (some price) r1 r2 now perf).1.close_reason = some "tp3" ∨
     (signal_monitor_step s (some price) r1 r2 now perf).1.close_reason = some "sl") := by
  unfold signal_monitor_step at hclosed ⊢
  by_cases hp : price_available (some price) = true
  · rw [if_pos hp] at hclosed ⊢
    cases hres : monitor_resolve r1 r2 with
    | none =>
      rw [hres] at hclosed
      have h2 : s.status = "closed" := hclosed
      rw [hact] at h2
      exact absurd h2 (by decide)
    | some reason =>
      have hr := monitor_resolve_reasons r1 r2 reason hres
      refine ⟨rfl, rfl, rfl, rfl, rfl, rfl, rfl, rfl, rfl, rfl, rfl, ?_⟩
      rcases hr with h | h | h | h <;> subst h <;> simp [close_signal]
  · rw [if_neg hp] at hclosed
    have h2 : s.status = "closed" := hclosed
    rw [hact] at h2
    exact absurd h2 (by decide)

/-- Witness for C7: `sampleSignal` at price 1800 with draws r1 = 0.5
(TP gate passes) and r2 = 0 (TP1 chosen) is closed at time 50. -/
theorem monitor_close_frame_witness :
    sampleSignal.status = "active" ∧
    (signal_monitor_step sampleSignal (some 1800) (1/2) 0 50 perf0).1.status = "closed" ∧
    ((signal_monitor_step sampleSignal (some 1800) (1/2) 0 50 perf0).1.pair = sampleSignal.pair ∧
     (signal_monitor_step sampleSignal (some 1800) (1/2) 0 50 perf0).1.direction = sampleSignal.direction ∧
     (signal_monitor_step sampleSignal (some 1800) (1/2) 0 50 perf0).1.strategy = sampleSignal.strategy ∧
     (signal_monitor_step sampleSignal (some 1800) (1/2) 0 50 perf0).1.entry = sampleSignal.entry ∧
     (signal_monitor_step sampleSignal (some 1800) (1/2) 0 50 perf0).1.tp1 = sampleSignal.tp1 ∧
     (signal_monitor_step sampleSignal (some 1800) (1/2) 0 50 perf0).1.tp2 = sampleSignal.tp2 ∧
     (signal_monitor_step sampleSignal (some 1800) (1/2) 0 50 perf0).1.tp3 = sampleSignal.tp3 ∧
     (signal_monitor_step sampleSignal (some 1800) (1/2) 0 50 perf0).1.sl = sampleSignal.sl ∧
     (signal_monitor_step sampleSignal (some 1800) (1/2) 0 50 perf0).1.confidence = sampleSignal.confidence ∧
     (signal_monitor_step sampleSignal (some 1800) (1/2) 0 50 perf0).1.expiry = sampleSignal.expiry ∧
     (signal_monitor_step sampleSignal (some 1800) (1/2) 0 50 perf0).1.created_at = sampleSignal.created_at ∧
     ((signal_monitor_step sampleSignal (some 1800) (1/2) 0 50 perf0).1.close_reason = some "tp1" ∨
      (signal_monitor_step sampleSignal (some 1800) (1/2) 0 50 perf0).1.close_reason = some "tp2" ∨
      (signal_monitor_step sampleSignal (some 1800) (1/2) 0 50 perf0).1.close_reason = some "tp3" ∨
      (signal_monitor_step sampleSignal (some 1800) (1/2) 0 50 perf0).1.close_reason = some "sl")) :=
  ⟨rfl,
   by norm_num [signal_monitor_step, price_available, monitor_resolve,
                choose_tp_level, close_signal],
   monitor_close_frame sampleSignal 1800 (1/2) 0 50 perf0 rfl
     (by norm_num [signal_monitor_step, price_available, monitor_resolve,
                   choose_tp_level, close_signal])⟩

/-- C8 counterexample: applying `close_signal` to an already-closed
record is not a no-op and is not rejected: it overwrites `closed_at`
(100 becomes 200) even when re-closing with the same reason, and it
increments the performance counters again. -/
theorem close_signal_reclose_mutates :
    closedSignal.status = "closed" ∧
    (close_signal closedSignal "tp1" 200 perf0).1.closed_at ≠ closedSignal.closed_at ∧
    (close_signal closedSignal "tp1" 200 perf0).2 ≠ perf0 := by
  refine ⟨rfl, ?_, ?_⟩ <;>
    simp [close_signal, closedSignal, sampleSignal, perf0]

/-- C8 amended: what protects CLOSED records in the code is the fetch,
not `close_signal`: the monitor selects only records whose status is
"active", so a CLOSED signal is never handed to the resolution logic or
re-closed by the monitor loop. -/
theorem closed_signal_never_fetched (signals : List Signal) (s : Signal)
    (h : s.status = "closed") : s ∉ fetch_active signals := by
  intro hmem
  rw [fetch_active, List.mem_filter] at hmem
  have h2 := hmem.2
  rw [h] at h2
  exact absurd (of_decide_eq_true h2) (by decide)

/-- Witness for the C8 amended theorem at a concrete closed record. -/
theorem closed_signal_never_fetched_witness :
    closedSignal.status = "closed" ∧ closedSignal ∉ fetch_active [closedSignal] :=
  ⟨rfl, closed_signal_never_fetched [closedSignal] closedSignal rfl⟩

/-- C2 counterexample: over the uniform random draws consumed by the
monitor's resolution policy, the probability of an SL close per tick is
not 10%: the 0.1 SL threshold is only tested when the 0.8 TP gate
already failed, so the unconditional SL probability is 0.2 × 0.1 = 2%. -/
theorem monitor_sl_prob_ne_ten_percent :
    monitor_outcome_prob (some "sl") ≠ 10/100 := by
  rw [monitor_prob_eq_grid]
  have h : ((Finset.range 10 ×ˢ Finset.range 10).filter
      (fun p => natResolve p.1 p.2 = some "sl")).card = 2 := by decide
  rw [h]
  norm_num

/-- C2 amended: per tick, a signal with an available price closes as a
TP hit with probability 80% (TP1/TP2/TP3 unconditionally 48%/24%/8%),
as an SL hit with probability 2% (the code's 10% SL draw is conditional
on the 20% case where the TP gate fails), and stays active with
probability 18%. -/
theorem monitor_resolution_probabilities :
    monitor_outcome_prob (some "tp1") = 48/100 ∧
    monitor_outcome_prob (some "tp2") = 24/100 ∧
    monitor_outcome_prob (some "tp3") = 8/100 ∧
    monitor_outcome_prob (some "tp1") + monitor_outcome_prob (some "tp2")
      + monitor_outcome_prob (some "tp3") = 80/100 ∧
    monitor_outcome_prob (some "sl") = 2/100 ∧
    monitor_outcome_prob none = 18/100 := by
  have h1 : ((Finset.range 10 ×ˢ Finset.range 10).filter
      (fun p => natResolve p.1 p.2 = some "tp1")).card = 48 := by decide
  have h2 : ((Finset.range 10 ×ˢ Finset.range 10).filter
      (fun p => natResolve p.1 p.2 = some "tp2")).card = 24 := by decide
  have h3 : ((Finset.range 10 ×ˢ Finset.range 10).filter
      (fun p => natResolve p.1 p.2 = some "tp3")).card = 8 := by decide
  have h4 : ((Finset.range 10 ×ˢ Finset.range 10).filter
      (fun p => natResolve p.1 p.2 = some "sl")).card = 2 := by decide
  have h5 : ((Finset.range 10 ×ˢ Finset.range 10).filter
      (fun p => natResolve p.1 p.2 = none)).card = 18 := by decide
  simp only [monitor_prob_eq_grid, h1, h2, h3, h4, h5]
  norm_num
